import Mathlib

/-!
Shallow embedding of the content analysis and scoring pipeline of the
Content_Recommendation repository (src/nlp_utils.py, src/app.py).

External natural-language primitives (BeautifulSoup markup stripping, NLTK
sentence/word tokenizers, the textstat readability statistics, the regex
engine and the sklearn TF-IDF vectorizer) are consumed by the repository as
capability interfaces; they are modelled here as fields of an `NlpOracle`
record.  Everything the repository itself computes (filters, counters,
scores, thresholds, recommendation rules, sorting) is translated directly
from the source.  Python floats are modelled as rationals; Python's
`sorted(..., reverse=True)` (a stable sort) is modelled by a stable
insertion sort on the priority key.
-/

namespace ContentRec

/-- Python `str.isalpha()`: non-empty and every character alphabetic. -/
def pyIsAlpha (s : String) : Bool :=
  s.data ≠ [] && s.data.all Char.isAlpha

/-- Python `str.lower()` (ASCII adequate for the repository's indicator lists). -/
def strLower (s : String) : String :=
  String.mk (s.data.map Char.toLower)

/-- Helper for `pySplit`: split a character list on whitespace runs. -/
def pySplitAux : List Char → List Char → List String
  | [], [] => []
  | [], acc => [String.mk acc.reverse]
  | c :: cs, acc =>
    if c.isWhitespace then
      (if acc = [] then pySplitAux cs [] else String.mk acc.reverse :: pySplitAux cs [])
    else pySplitAux cs (c :: acc)

/-- Python `str.split()` with no argument: split on whitespace runs, dropping
empty pieces; `"".split()` is `[]`. -/
def pySplit (s : String) : List String :=
  pySplitAux s.data []

/-- Helper for paragraph splitting: Python `str.split("\n\n")` specialised to
the two-newline separator used at nlp_utils.py line 61 (leftmost,
non-overlapping). -/
def splitParasAux : List Char → List Char → List (List Char)
  | [], acc => [acc.reverse]
  | '\n' :: '\n' :: cs, acc => acc.reverse :: splitParasAux cs []
  | c :: cs, acc => splitParasAux cs (c :: acc)

/-- Python `clean_text.split('\n\n')`. -/
def splitParas (s : String) : List String :=
  (splitParasAux s.data []).map String.mk

/-- Python `str.strip()`: drop leading and trailing whitespace. -/
def strTrim (s : String) : String :=
  String.mk (((s.data.dropWhile Char.isWhitespace).reverse.dropWhile Char.isWhitespace).reverse)

/-- Does `needle` occur as a contiguous substring of `hay`?  Models Python's
`needle in hay` on strings. -/
def listContainsSub (needle : List Char) : List Char → Bool
  | [] => needle.isPrefixOf []
  | c :: cs => needle.isPrefixOf (c :: cs) || listContainsSub needle cs

/-- Python `needle in hay` for strings. -/
def strContainsSub (hay needle : String) : Bool :=
  listContainsSub needle.data hay.data

/-- Number of (possibly overlapping) occurrences of `needle` in `hay`,
counted by starting position.  Used only to formalise the specification's
"count of indicator occurrences" reading of the tone score. -/
def countOcc (needle : List Char) : List Char → Nat
  | [] => if needle.isPrefixOf [] then 1 else 0
  | c :: cs => (if needle.isPrefixOf (c :: cs) then 1 else 0) + countOcc needle cs

/-- Stable descending insertion: place `x` after every element with a
strictly greater key and before every element with a smaller-or-equal key. -/
def insertDescBy (k : α → Nat) (x : α) : List α → List α
  | [] => [x]
  | y :: ys => if k x < k y then y :: insertDescBy k x ys else x :: y :: ys

/-- Python `sorted(l, key=k, reverse=True)`: stable sort by non-increasing
key (CPython's sort is stable, and `reverse=True` preserves stability). -/
def pySortedDesc (k : α → Nat) : List α → List α
  | [] => []
  | x :: xs => insertDescBy k x (pySortedDesc k xs)

/-- Keys of a Python `Counter` in first-insertion (= first-occurrence) order. -/
def counterKeys (ws : List String) : List String :=
  ws.foldl (fun acc w => if acc.contains w then acc else acc ++ [w]) []

/-- Python `Counter(ws).most_common(n)`: (key, count) pairs sorted by count
descending, ties in first-insertion order, truncated to `n`. -/
def mostCommon (ws : List String) (n : Nat) : List (String × Nat) :=
  (pySortedDesc (fun p => p.2) ((counterKeys ws).map (fun w => (w, ws.count w)))).take n

/-! ## Data model -/

/-- Heading texts per level extracted by the markup stripper
(nlp_utils.py lines 50-54). -/
structure Headings where
  h1 : List String
  h2 : List String
  h3 : List String
  deriving DecidableEq

/-- Result of `preprocess_content` (nlp_utils.py lines 44-83). -/
structure PreprocessedContent where
  clean_text : String
  sentences : List String
  paragraphs : List String
  tokens : List (String × String × String)
  entities : List (String × String)
  headings : Headings
  original_html : Bool
  deriving DecidableEq

/-- The external natural-language capabilities the repository consumes:
markup stripping with heading extraction (BeautifulSoup), the linguistic
parse (spaCy, or the NLTK POS-tagger fallback), NLTK tokenizers and stopword
corpus, the textstat readability statistics, regex match counting, and the
sklearn TF-IDF cosine-similarity mean (`none` models a raised exception in
the vectorizer). -/
structure NlpOracle where
  stripMarkup : String → String × Headings
  parse : String → List (String × String × String) × List (String × String)
  sent_tokenize : String → List String
  word_tokenize : String → List String
  flesch_kincaid_grade : String → ℚ
  flesch_reading_ease : String → ℚ
  avg_sentence_length : String → ℚ
  difficult_words : String → Nat
  syllable_count : String → Nat
  findall_count : String → String → Nat
  tfidf_cosine_mean : String → List String → Option ℚ
  stop_words : List String

/-- Metrics record of `analyze_readability` (nlp_utils.py lines 85-101). -/
structure ReadabilityMetrics where
  flesch_kincaid_grade : ℚ
  flesch_reading_ease : ℚ
  avg_sentence_length : ℚ
  difficult_words : Nat
  syllable_count : Nat
  word_count : Nat
  passive_voice_count : Nat
  passive_voice_percentage : ℚ
  deriving DecidableEq

/-- Metrics record of `analyze_topic_coverage` (nlp_utils.py lines 117-147). -/
structure TopicCoverageMetrics where
  coverage_score : ℚ
  word_frequency : List (String × Nat)
  unique_words : Nat
  total_words : Nat
  lexical_diversity : ℚ
  deriving DecidableEq

/-- The `heading_structure` sub-record of `analyze_seo_features`. -/
structure HeadingStructure where
  h1_count : Nat
  h2_count : Nat
  h3_count : Nat
  proper_hierarchy : Bool
  deriving DecidableEq

/-- Metrics record of `analyze_seo_features` (nlp_utils.py lines 149-165). -/
structure SeoMetrics where
  heading_structure : HeadingStructure
  content_length : Nat
  meta_title_length : Nat
  keyword_density : List (String × ℚ)
  deriving DecidableEq

/-- The four tone scores, in the dict insertion order of
nlp_utils.py lines 191-196. -/
structure ToneScores where
  formal : Nat
  casual : Nat
  expert : Nat
  persuasive : Nat
  deriving DecidableEq

/-- Result of `detect_tone` (nlp_utils.py lines 181-205). -/
structure ToneMetrics where
  detected_tone : String
  tone_scores : ToneScores
  confidence : ℚ
  deriving DecidableEq

/-- A recommendation produced by `generate_recommendations`
(nlp_utils.py lines 207-313).  The Python f-string numeric interpolations
inside `message` are elided (messages keep their static template text);
no verified property depends on the rendered numbers. -/
structure Recommendation where
  type : String
  priority : String
  message : String
  current_value : ℚ
  target_value : ℚ
  deriving DecidableEq

/-- Target parameters dict as built by `process_content`
(nlp_utils.py lines 320-325) and `generate_rewrite` (lines 400-405). -/
structure TargetParams where
  target_audience : String
  target_readability : Int
  target_tone : String
  optimization_goal : String
  deriving DecidableEq

/-- The caller-supplied request payload (a JSON object): `content` is
required by the routes; the four optional fields are `none` when the key is
absent.  Python `dict.get(k, d)` / `dict.setdefault(k, d)` act only on
absent keys, which `Option.getD` models. -/
structure RequestData where
  content : String
  target_audience : Option String
  target_readability : Option Int
  target_tone : Option String
  optimization_goal : Option String
  deriving DecidableEq

/-- Structural summary stored in the compiled analysis results
(nlp_utils.py lines 342-347); the dict key is `structure`. -/
structure StructureSummary where
  sentence_count : Nat
  paragraph_count : Nat
  entities : List (String × String)
  headings : Headings
  deriving DecidableEq

/-- The compiled `analysis_results` dict (nlp_utils.py lines 337-348). -/
structure AnalysisResults where
  readability : ReadabilityMetrics
  topic_coverage : TopicCoverageMetrics
  seo : SeoMetrics
  tone : ToneMetrics
  structure_summary : StructureSummary
  deriving DecidableEq

/-- The `overall_scores` dict (nlp_utils.py lines 354-358). -/
structure Scores where
  readability_score : ℚ
  seo_score : Int
  content_quality_score : ℚ
  deriving DecidableEq

/-- The report returned by `process_content` (nlp_utils.py lines 360-364). -/
structure Report where
  analysis : AnalysisResults
  scores : Scores
  target_params : TargetParams
  deriving DecidableEq

/-! ## The ContentOptimizer pipeline (nlp_utils.py) -/

/-- `ContentOptimizer.preprocess_content` (nlp_utils.py lines 44-83).
Markup stripping with heading extraction and the linguistic parse are the
external collaborators; segmentation into paragraphs is the repository's own
`clean_text.split('\n\n')` with trimming and empty-dropping. -/
def preprocess_content (o : NlpOracle) (text : String) : PreprocessedContent :=
  let stripped := o.stripMarkup text
  let clean_text := stripped.1
  let headings := stripped.2
  let sentences := o.sent_tokenize clean_text
  let paragraphs := ((splitParas clean_text).map strTrim).filter (fun p => p ≠ "")
  let parsed := o.parse clean_text
  { clean_text := clean_text
    sentences := sentences
    paragraphs := paragraphs
    tokens := parsed.1
    entities := parsed.2
    headings := headings
    original_html := text ≠ clean_text }

/-- The three passive-voice regex pattern source strings
(nlp_utils.py lines 105-109). -/
def passive_patterns : List String :=
  ["\\b(was|were|been|being|is|are|am)\\s+\\w+ed\\b",
   "\\b(was|were|been|being|is|are|am)\\s+\\w+en\\b",
   "\\bby\\s+\\w+\\s+(was|were|been|being|is|are|am)"]

/-- `ContentOptimizer.detect_passive_voice` (nlp_utils.py lines 103-115):
sum of regex match counts over the three patterns (regex engine external). -/
def detect_passive_voice (o : NlpOracle) (text : String) : Nat :=
  (passive_patterns.map (fun p => o.findall_count p text)).sum

/-- `ContentOptimizer.analyze_readability` (nlp_utils.py lines 85-101).
The `target_level` parameter is accepted and, as in the source, unused.
`passive_voice_percentage` is guarded by the truthiness of
`sent_tokenize(text)`. -/
def analyze_readability (o : NlpOracle) (text : String) (_target_level : Int) :
    ReadabilityMetrics :=
  let passive_count := detect_passive_voice o text
  { flesch_kincaid_grade := o.flesch_kincaid_grade text
    flesch_reading_ease := o.flesch_reading_ease text
    avg_sentence_length := o.avg_sentence_length text
    difficult_words := o.difficult_words text
    syllable_count := o.syllable_count text
    word_count := (pySplit text).length
    passive_voice_count := passive_count
    passive_voice_percentage :=
      if o.sent_tokenize text ≠ [] then
        ((passive_count : ℚ) / ((o.sent_tokenize text).length : ℚ)) * 100
      else 0 }

/-- The filtered word list of `analyze_topic_coverage`
(nlp_utils.py lines 119-120): lowercased tokens that are alphabetic and not
stopwords. -/
def coverageWords (o : NlpOracle) (text : String) : List String :=
  (o.word_tokenize text).filterMap
    (fun w =>
      if ¬ o.stop_words.contains (strLower w) ∧ pyIsAlpha w then some (strLower w)
      else none)

/-- `ContentOptimizer.analyze_topic_coverage` (nlp_utils.py lines 117-147).
With reference topics the TF-IDF/cosine computation is external
(`none` = the vectorizer raised, giving the default score 50); without them
the diversity heuristic is computed directly.  `process_content` always
calls this with `reference_topics = none`. -/
def analyze_topic_coverage (o : NlpOracle) (text : String)
    (reference_topics : Option (List String)) : TopicCoverageMetrics :=
  let words := coverageWords o text
  let coverage_score : ℚ :=
    match reference_topics with
    | some topics =>
      match o.tfidf_cosine_mean text topics with
      | some similarity => min (similarity * 100) 100
      | none => 50
    | none =>
      let unique_words : ℚ := ((counterKeys words).length : ℚ)
      let total_words : ℚ := (words.length : ℚ)
      min ((unique_words / max (total_words * (1/10)) 1) * 100) 100
  { coverage_score := coverage_score
    word_frequency := mostCommon words 10
    unique_words := (counterKeys words).length
    total_words := words.length
    lexical_diversity :=
      if words ≠ [] then ((counterKeys words).length : ℚ) / (words.length : ℚ) else 0 }

/-- The filtered word list of `calculate_keyword_density`
(nlp_utils.py lines 169-170): lowercased tokens that are alphabetic,
not stopwords, and longer than 3 characters. -/
def keywordWords (o : NlpOracle) (text : String) : List String :=
  (o.word_tokenize text).filterMap
    (fun w =>
      if ¬ o.stop_words.contains (strLower w) ∧ pyIsAlpha w ∧ w.length > 3 then
        some (strLower w)
      else none)

/-- `ContentOptimizer.calculate_keyword_density` (nlp_utils.py lines 167-179):
density (percentage of total qualifying words) for the `top_n` most common
qualifying words.  The division runs only for words drawn from the
frequency counter. -/
def calculate_keyword_density (o : NlpOracle) (text : String) (top_n : Nat) :
    List (String × ℚ) :=
  let words := keywordWords o text
  let total_words := words.length
  (mostCommon words top_n).map
    (fun p => (p.1, ((p.2 : ℚ) / (total_words : ℚ)) * 100))

/-- `ContentOptimizer.analyze_seo_features` (nlp_utils.py lines 149-165). -/
def analyze_seo_features (o : NlpOracle) (processed_content : PreprocessedContent)
    (text : String) : SeoMetrics :=
  let headings := processed_content.headings
  { heading_structure :=
      { h1_count := headings.h1.length
        h2_count := headings.h2.length
        h3_count := headings.h3.length
        proper_hierarchy := headings.h1.length = 1 ∧ headings.h2.length > 0 }
    content_length := (pySplit text).length
    meta_title_length :=
      match headings.h1 with
      | [] => 0
      | t :: _ => t.length
    keyword_density := calculate_keyword_density o text 5 }

/-- Indicator list for the formal tone (nlp_utils.py line 184). -/
def formal_indicators : List String :=
  ["furthermore", "moreover", "consequently", "therefore", "thus", "hence"]

/-- Indicator list for the casual tone (nlp_utils.py line 185). -/
def casual_indicators : List String :=
  ["really", "pretty", "quite", "sort of", "kind of", "stuff", "things"]

/-- Indicator list for the expert tone (nlp_utils.py line 186). -/
def expert_indicators : List String :=
  ["methodology", "implementation", "framework", "analysis", "evaluation"]

/-- Indicator list for the persuasive tone (nlp_utils.py line 187). -/
def persuasive_indicators : List String :=
  ["should", "must", "need to", "important", "essential", "critical"]

/-- One tone score (nlp_utils.py lines 192-195):
`sum(1 for indicator in indicators if indicator in text_lower)` — the number
of indicators present as substrings, each contributing 0 or 1. -/
def toneHits (indicators : List String) (text_lower : String) : Nat :=
  (indicators.filter (fun i => strContainsSub text_lower i)).length

/-- Python `max(iterable)` over (name, value) pairs with `key=scores.get`:
returns the first element attaining the maximum value (later elements
replace the best only when strictly greater). -/
def pyMaxFirst (p : String × Nat) (ps : List (String × Nat)) : String :=
  (ps.foldl (fun best q => if best.2 < q.2 then q else best) p).1

/-- `ContentOptimizer.detect_tone` (nlp_utils.py lines 181-205). -/
def detect_tone (text : String) : ToneMetrics :=
  let text_lower := strLower text
  let scores : ToneScores :=
    { formal := toneHits formal_indicators text_lower
      casual := toneHits casual_indicators text_lower
      expert := toneHits expert_indicators text_lower
      persuasive := toneHits persuasive_indicators text_lower }
  let dominant_tone :=
    if scores.formal ≠ 0 ∨ scores.casual ≠ 0 ∨ scores.expert ≠ 0 ∨ scores.persuasive ≠ 0 then
      pyMaxFirst ("formal", scores.formal)
        [("casual", scores.casual), ("expert", scores.expert),
         ("persuasive", scores.persuasive)]
    else "neutral"
  let max_score := max (max (max scores.formal scores.casual) scores.expert) scores.persuasive
  { detected_tone := dominant_tone
    tone_scores := scores
    confidence :=
      if pySplit text ≠ [] then
        ((max_score : ℚ) / ((pySplit text).length : ℚ)) * 100
      else 0 }

/-- The priority weight map `{'high': 3, 'medium': 2, 'low': 1}` of
nlp_utils.py line 313 (every priority the engine constructs is one of the
three keys, so the Python `KeyError` branch is unreachable). -/
def priority_weight (p : String) : Nat :=
  if p = "high" then 3 else if p = "medium" then 2 else 1

/-- The recommendation list of `generate_recommendations`
(nlp_utils.py lines 209-311) before the final sort, in rule-table
evaluation (append) order. -/
def fired_recommendations (ar : AnalysisResults) (tp : TargetParams) :
    List Recommendation :=
  let readability := ar.readability
  let seo := ar.seo
  let topic_coverage := ar.topic_coverage
  let target_grade := tp.target_readability
  (if readability.flesch_kincaid_grade > (target_grade : ℚ) then
    [{ type := "readability", priority := "high"
       message := "Reading grade too high. Shorten sentences and use simpler words."
       current_value := readability.flesch_kincaid_grade
       target_value := (target_grade : ℚ) }]
   else [])
  ++ (if readability.avg_sentence_length > 20 then
    [{ type := "readability", priority := "medium"
       message := "Average sentence length too long. Aim for 15-20 words per sentence."
       current_value := readability.avg_sentence_length
       target_value := 20 }]
   else [])
  ++ (if readability.passive_voice_percentage > 10 then
    [{ type := "style", priority := "medium"
       message := "High passive voice usage. Use active voice for better engagement."
       current_value := readability.passive_voice_percentage
       target_value := 10 }]
   else [])
  ++ (if seo.heading_structure.h1_count = 0 then
    [{ type := "seo", priority := "high"
       message := "Missing H1 heading. Add a main title to your content."
       current_value := 0
       target_value := 1 }]
   else if seo.heading_structure.h1_count > 1 then
    [{ type := "seo", priority := "medium"
       message := "Multiple H1 headings found. Use only one H1 per page."
       current_value := (seo.heading_structure.h1_count : ℚ)
       target_value := 1 }]
   else [])
  ++ (if seo.heading_structure.h2_count = 0 ∧ seo.content_length > 300 then
    [{ type := "seo", priority := "medium"
       message := "No H2 headings found. Add section headings to improve structure and SEO."
       current_value := 0
       target_value := 2 }]
   else [])
  ++ (seo.keyword_density.filterMap (fun kd =>
    if kd.2 > 3 then
      some { type := "seo", priority := "medium"
             message := "Keyword density too high. Reduce to avoid keyword stuffing."
             current_value := kd.2
             target_value := 3 }
    else none))
  ++ (if seo.content_length < 300 then
    [{ type := "content", priority := "high"
       message := "Content too short. Aim for at least 300 words for better SEO."
       current_value := (seo.content_length : ℚ)
       target_value := 300 }]
   else [])
  ++ (if topic_coverage.coverage_score < 70 then
    [{ type := "content", priority := "medium"
       message := "Low topic coverage score. Consider adding more relevant subtopics and keywords."
       current_value := topic_coverage.coverage_score
       target_value := 70 }]
   else [])
  ++ (if topic_coverage.lexical_diversity < (1/2 : ℚ) then
    [{ type := "style", priority := "low"
       message := "Low vocabulary diversity. Use more varied vocabulary."
       current_value := topic_coverage.lexical_diversity
       target_value := 1/2 }]
   else [])

/-- `ContentOptimizer.generate_recommendations` (nlp_utils.py lines 207-313):
the fired rules, stably sorted by descending priority weight. -/
def generate_recommendations (ar : AnalysisResults) (tp : TargetParams) :
    List Recommendation :=
  pySortedDesc (fun r => priority_weight r.priority) (fired_recommendations ar tp)

/-- `calculate_seo_score` (nlp_utils.py lines 368-395): sequential
adjustments of a running score starting at 100, then clamp to [0, 100]. -/
def calculate_seo_score (seo_analysis : SeoMetrics) : Int :=
  let score : Int := 100
  let score :=
    if seo_analysis.heading_structure.h1_count = 0 then score - 20
    else if seo_analysis.heading_structure.h1_count > 1 then score - 10
    else score
  let score :=
    if seo_analysis.heading_structure.h2_count > 0 then score + 5 else score - 10
  let score :=
    if seo_analysis.content_length < 300 then score - 15
    else if seo_analysis.content_length > 2000 then score + 10
    else score
  let score :=
    seo_analysis.keyword_density.foldl
      (fun sc kd => if kd.2 > 3 then sc - 5 else sc) score
  max 0 (min 100 score)

/-- `process_content` (nlp_utils.py lines 315-366): the main analysis
pipeline, from the request payload to the report and recommendation list.
Note that its own defaults for absent optional fields are the empty string
(`data.get(key, '')`) and 8 for the readability target. -/
def process_content (o : NlpOracle) (data : RequestData) :
    Report × List Recommendation :=
  let text := data.content
  let target_params : TargetParams :=
    { target_audience := data.target_audience.getD ""
      target_readability := data.target_readability.getD 8
      target_tone := data.target_tone.getD ""
      optimization_goal := data.optimization_goal.getD "" }
  let processed_content := preprocess_content o text
  let readability_analysis :=
    analyze_readability o processed_content.clean_text target_params.target_readability
  let topic_analysis := analyze_topic_coverage o processed_content.clean_text none
  let seo_analysis := analyze_seo_features o processed_content processed_content.clean_text
  let tone_analysis := detect_tone processed_content.clean_text
  let analysis_results : AnalysisResults :=
    { readability := readability_analysis
      topic_coverage := topic_analysis
      seo := seo_analysis
      tone := tone_analysis
      structure_summary :=
        { sentence_count := processed_content.sentences.length
          paragraph_count := processed_content.paragraphs.length
          entities := processed_content.entities.take 10
          headings := processed_content.headings } }
  let recommendations := generate_recommendations analysis_results target_params
  let overall_scores : Scores :=
    { readability_score :=
        max 0 (min 100
          (100 - (readability_analysis.flesch_kincaid_grade
                    - (target_params.target_readability : ℚ)) * 10))
      seo_score := calculate_seo_score seo_analysis
      content_quality_score := min 100 topic_analysis.coverage_score }
  ({ analysis := analysis_results
     scores := overall_scores
     target_params := target_params }, recommendations)

/-- The `data.setdefault(...)` block of the `/optimize` and `/rewrite`
routes (app.py lines 34-38 and 67-71): absent keys are filled with the
documented defaults; keys present with an empty-string value are left
untouched. -/
def apply_route_defaults (data : RequestData) : RequestData :=
  { data with
    target_readability := some (data.target_readability.getD 8)
    target_audience := some (data.target_audience.getD "general audience")
    target_tone := some (data.target_tone.getD "professional")
    optimization_goal := some (data.optimization_goal.getD "engagement") }

/-- The target-params dict built by `generate_rewrite`
(nlp_utils.py lines 400-405), whose absent-key defaults are the named
defaults (unlike `process_content`). -/
def rewrite_target_params (data : RequestData) : TargetParams :=
  { target_audience := data.target_audience.getD "general audience"
    target_readability := data.target_readability.getD 8
    target_tone := data.target_tone.getD "professional"
    optimization_goal := data.optimization_goal.getD "engagement" }

/-- `generate_rewrite` (nlp_utils.py lines 397-426).  The fallible analysis
(the `try` body through `process_content`) is a parameter returning
`Except`; the two Gemini collaborators are total functions (they catch
their own errors internally, per gemini_utils.py).  On analysis failure the
`except` branch calls the rewrite collaborator without recommendations and
still requests assets. -/
def generate_rewrite {α : Type} (run_analysis : RequestData → Except String (Report × List Recommendation))
    (gemini_rewrite_c : String → Option (List Recommendation) → TargetParams → String)
    (gemini_assets_c : String → TargetParams → α)
    (data : RequestData) : String × α :=
  let content := data.content
  let target_params := rewrite_target_params data
  match run_analysis data with
  | Except.ok result =>
      let recommendations := result.2
      (gemini_rewrite_c content (some recommendations) target_params,
       gemini_assets_c content target_params)
  | Except.error _ =>
      (gemini_rewrite_c content none target_params,
       gemini_assets_c content target_params)

/-- A concrete oracle whose collaborators return empty/zero outputs, used to
instantiate universally quantified theorems at a specific input. -/
def trivialOracle : NlpOracle :=
  { stripMarkup := fun t => (t, { h1 := [], h2 := [], h3 := [] })
    parse := fun _ => ([], [])
    sent_tokenize := fun _ => []
    word_tokenize := fun _ => []
    flesch_kincaid_grade := fun _ => 0
    flesch_reading_ease := fun _ => 0
    avg_sentence_length := fun _ => 0
    difficult_words := fun _ => 0
    syllable_count := fun _ => 0
    findall_count := fun _ _ => 0
    tfidf_cosine_mean := fun _ _ => none
    stop_words := [] }

/-! ## Lemmas about the stable descending sort -/

theorem mem_insertDescBy (k : α → Nat) (x a : α) (l : List α) :
    a ∈ insertDescBy k x l ↔ a = x ∨ a ∈ l := by
  induction l with
  | nil => simp [insertDescBy]
  | cons y ys ih =>
    by_cases h : k x < k y
    · simp only [insertDescBy, if_pos h, List.mem_cons, ih]
      tauto
    · simp only [insertDescBy, if_neg h, List.mem_cons]

theorem mem_pySortedDesc (k : α → Nat) (a : α) (l : List α) :
    a ∈ pySortedDesc k l ↔ a ∈ l := by
  induction l with
  | nil => simp [pySortedDesc]
  | cons x xs ih =>
    simp only [pySortedDesc, mem_insertDescBy, ih, List.mem_cons]

theorem pairwise_insertDescBy (k : α → Nat) (x : α) (l : List α)
    (h : l.Pairwise (fun a b => k b ≤ k a)) :
    (insertDescBy k x l).Pairwise (fun a b => k b ≤ k a) := by
  induction l with
  | nil => simp [insertDescBy]
  | cons y ys ih =>
    rw [List.pairwise_cons] at h
    obtain ⟨hy, hys⟩ := h
    by_cases hxy : k x < k y
    · rw [insertDescBy, if_pos hxy, List.pairwise_cons]
      refine ⟨?_, ih hys⟩
      intro b hb
      rcases (mem_insertDescBy k x b ys).mp hb with rfl | hb
      · exact Nat.le_of_lt hxy
      · exact hy b hb
    · rw [insertDescBy, if_neg hxy, List.pairwise_cons]
      refine ⟨?_, List.pairwise_cons.mpr ⟨hy, hys⟩⟩
      intro b hb
      rcases List.mem_cons.mp hb with rfl | hb
      · exact Nat.le_of_not_lt hxy
      · exact Nat.le_trans (hy b hb) (Nat.le_of_not_lt hxy)

theorem pairwise_pySortedDesc (k : α → Nat) (l : List α) :
    (pySortedDesc k l).Pairwise (fun a b => k b ≤ k a) := by
  induction l with
  | nil => simp [pySortedDesc]
  | cons x xs ih => exact pairwise_insertDescBy k x _ ih

theorem filter_insertDescBy (k : α → Nat) (q : α → Bool) (v : Nat)
    (hq : ∀ a, q a = true → k a = v) (x : α) (l : List α) :
    (insertDescBy k x l).filter q = if q x then x :: l.filter q else l.filter q := by
  induction l with
  | nil => cases hx : q x <;> simp [insertDescBy, List.filter, hx]
  | cons y ys ih =>
    by_cases hxy : k x < k y
    · rw [insertDescBy, if_pos hxy]
      cases hx : q x with
      | false =>
        cases hy : q y <;>
          simp [List.filter, hy, hx, ih, hx]
      | true =>
        cases hy : q y with
        | false => simp [List.filter, hy, ih, hx]
        | true =>
          rw [hq x hx, hq y hy] at hxy
          exact absurd hxy (lt_irrefl v)
    · rw [insertDescBy, if_neg hxy]
      cases hx : q x <;> simp [List.filter, hx]

theorem filter_pySortedDesc (k : α → Nat) (q : α → Bool) (v : Nat)
    (hq : ∀ a, q a = true → k a = v) (l : List α) :
    (pySortedDesc k l).filter q = l.filter q := by
  induction l with
  | nil => rfl
  | cons x xs ih =>
    rw [pySortedDesc, filter_insertDescBy k q v hq]
    cases hx : q x <;> simp [List.filter, hx, ih]

/-- C1: for every input to the recommendation engine, the returned
recommendation sequence is sorted by non-increasing priority weight
(high = 3, medium = 2, low = 1), and for every priority string the
subsequence of recommendations carrying that priority appears exactly in
the rule-table evaluation order in which the rules fired (stable sort). -/
theorem recommendations_sorted_and_stable (ar : AnalysisResults) (tp : TargetParams) :
    (generate_recommendations ar tp).Pairwise
      (fun a b => priority_weight b.priority ≤ priority_weight a.priority) ∧
    ∀ p : String,
      (generate_recommendations ar tp).filter (fun r => r.priority == p) =
        (fired_recommendations ar tp).filter (fun r => r.priority == p) := by
  constructor
  · exact pairwise_pySortedDesc _ _
  · intro p
    refine filter_pySortedDesc _ _ (priority_weight p) ?_ _
    intro a ha
    have : a.priority = p := by
      simpa using ha
    rw [this]

/-! ## SEO score: closed-form specification and range -/

/-- The SEO scoring formula exactly as the specification words it: start at
100; subtract 20 if zero h1, subtract 10 if multiple h1; add 5 if any h2
else subtract 10; subtract 15 if content_length < 300, add 10 if
content_length > 2000; subtract 5 per keyword exceeding 3% density; clamp
to [0, 100]. -/
def seo_score_spec (s : SeoMetrics) : Int :=
  let h1_adjust : Int :=
    if s.heading_structure.h1_count = 0 then -20
    else if s.heading_structure.h1_count > 1 then -10
    else 0
  let h2_adjust : Int := if s.heading_structure.h2_count > 0 then 5 else -10
  let length_adjust : Int :=
    if s.content_length < 300 then -15
    else if s.content_length > 2000 then 10
    else 0
  let stuffing_penalty : Int :=
    5 * ((s.keyword_density.filter (fun kd => kd.2 > 3)).length : Int)
  max 0 (min 100 (100 + h1_adjust + h2_adjust + length_adjust - stuffing_penalty))

theorem seo_keyword_foldl (l : List (String × ℚ)) (init : Int) :
    l.foldl (fun sc kd => if kd.2 > 3 then sc - 5 else sc) init =
      init - 5 * ((l.filter (fun kd => kd.2 > 3)).length : Int) := by
  induction l generalizing init with
  | nil => simp
  | cons kd rest ih =>
    rw [List.foldl_cons, List.filter_cons]
    by_cases h : kd.2 > 3
    · rw [if_pos h, ih, if_pos (decide_eq_true h), List.length_cons]
      push_cast
      ring
    · rw [if_neg h, ih, if_neg (by simp [h])]

/-- The SeoMetrics record of the specification's worked example: zero h1
headings, one h2, 1500 words, no keyword above 3% density. -/
def seo_example_85 : SeoMetrics :=
  { heading_structure := { h1_count := 0, h2_count := 1, h3_count := 0,
                           proper_hierarchy := false }
    content_length := 1500
    meta_title_length := 0
    keyword_density := [("keyword", 2)] }

/-- C8: for every SEO metrics record, `calculate_seo_score` equals 100
minus 20 if h1_count is 0, minus 10 if h1_count exceeds 1, plus 5 if
h2_count is positive else minus 10, minus 15 if content_length < 300, plus
10 if content_length > 2000, minus 5 per keyword whose density exceeds 3,
clamped to [0, 100]; and the worked example (zero h1, one h2, 1500 words,
no dense keyword) scores exactly 85. -/
theorem calculate_seo_score_spec :
    (∀ s : SeoMetrics, calculate_seo_score s = seo_score_spec s) ∧
    calculate_seo_score seo_example_85 = 85 := by
  constructor
  · intro s
    simp only [calculate_seo_score, seo_score_spec, seo_keyword_foldl]
    split_ifs <;> (refine congrArg (fun z : Int => max 0 (min 100 z)) ?_; push_cast; ring)
  · decide

/-! ## Score ranges -/

theorem clamp_range {α : Type} [LinearOrder α] (lo hi x : α) (h : lo ≤ hi) :
    lo ≤ max lo (min hi x) ∧ max lo (min hi x) ≤ hi :=
  ⟨le_max_left _ _, max_le h (min_le_left _ _)⟩

theorem analyze_topic_coverage_none_coverage (o : NlpOracle) (text : String) :
    (analyze_topic_coverage o text none).coverage_score =
      min (((((counterKeys (coverageWords o text)).length : ℚ)) /
        max (((coverageWords o text).length : ℚ) * (1/10)) 1) * 100) 100 := rfl

theorem coverage_score_nonneg (o : NlpOracle) (text : String) :
    0 ≤ (analyze_topic_coverage o text none).coverage_score := by
  rw [analyze_topic_coverage_none_coverage]
  refine le_min ?_ (by norm_num)
  have hm : (0:ℚ) < max (((coverageWords o text).length : ℚ) * (1/10)) 1 :=
    lt_of_lt_of_le one_pos (le_max_right _ _)
  exact mul_nonneg (div_nonneg (Nat.cast_nonneg _) hm.le) (by norm_num)

/-- The request payload used to instantiate universally quantified theorems:
a one-character content with every optional field absent. -/
def sampleData : RequestData :=
  { content := "x", target_audience := none, target_readability := none,
    target_tone := none, optimization_goal := none }

/-- C2: for every non-empty content string and valid target parameters, the
report produced by the analysis pipeline has readability_score, seo_score
and content_quality_score each in the closed interval [0, 100], whatever
values the external tokenizers and readability statistics return. -/
theorem report_scores_in_range (o : NlpOracle) (data : RequestData)
    (_h : data.content ≠ "") :
    (0 ≤ (process_content o data).1.scores.readability_score ∧
      (process_content o data).1.scores.readability_score ≤ 100) ∧
    (0 ≤ (process_content o data).1.scores.seo_score ∧
      (process_content o data).1.scores.seo_score ≤ 100) ∧
    (0 ≤ (process_content o data).1.scores.content_quality_score ∧
      (process_content o data).1.scores.content_quality_score ≤ 100) := by
  refine ⟨?_, ?_, ?_⟩
  · exact clamp_range (0 : ℚ) 100 _ (by norm_num)
  · exact clamp_range (0 : Int) 100 _ (by norm_num)
  · constructor
    · exact le_min (by norm_num) (coverage_score_nonneg o _)
    · exact min_le_left _ _

/-- Witness for C2 at a concrete oracle and request. -/
theorem report_scores_in_range_witness :
    (0 ≤ (process_content trivialOracle sampleData).1.scores.readability_score ∧
      (process_content trivialOracle sampleData).1.scores.readability_score ≤ 100) ∧
    (0 ≤ (process_content trivialOracle sampleData).1.scores.seo_score ∧
      (process_content trivialOracle sampleData).1.scores.seo_score ≤ 100) ∧
    (0 ≤ (process_content trivialOracle sampleData).1.scores.content_quality_score ∧
      (process_content trivialOracle sampleData).1.scores.content_quality_score ≤ 100) :=
  report_scores_in_range trivialOracle sampleData (by decide)

/-! ## Empty content -/

/-- A request whose content is the empty string and whose optional fields
are all absent. -/
def emptyRequest : RequestData :=
  { content := "", target_audience := none, target_readability := none,
    target_tone := none, optimization_goal := none }

/-- C3: running the analysis pipeline on empty content does not raise (the
pipeline is total): it yields word_count = 0 and content_length = 0, and
the recommendation list contains the high-priority "content too short"
recommendation with target_value = 300.  The only assumption on the
external capabilities is that the markup stripper maps empty input to empty
clean text with no headings. -/
theorem empty_content_analysis (o : NlpOracle)
    (hstrip : o.stripMarkup "" = ("", { h1 := [], h2 := [], h3 := [] })) :
    (process_content o emptyRequest).1.analysis.readability.word_count = 0 ∧
    (process_content o emptyRequest).1.analysis.seo.content_length = 0 ∧
    ({ type := "content", priority := "high",
       message := "Content too short. Aim for at least 300 words for better SEO.",
       current_value := 0, target_value := 300 } : Recommendation) ∈
      (process_content o emptyRequest).2 := by
  have hclean : (preprocess_content o "").clean_text = "" := by
    show (o.stripMarkup "").1 = ""
    rw [hstrip]
  have hwc : (pySplit (preprocess_content o "").clean_text).length = 0 := by
    rw [hclean]
    rfl
  have hseo_len : (process_content o emptyRequest).1.analysis.seo.content_length = 0 := hwc
  refine ⟨hwc, hseo_len, ?_⟩
  have h2 : (process_content o emptyRequest).2 =
      generate_recommendations (process_content o emptyRequest).1.analysis
        (process_content o emptyRequest).1.target_params := rfl
  rw [h2]
  simp only [generate_recommendations]
  rw [mem_pySortedDesc]
  simp only [fired_recommendations]
  refine List.mem_append_left _ (List.mem_append_left _ (List.mem_append_right _ ?_))
  rw [if_pos (show (process_content o emptyRequest).1.analysis.seo.content_length < 300 by
    rw [hseo_len]; norm_num)]
  simp [hseo_len]

/-- Witness for C3 at a concrete oracle whose collaborators return empty
outputs on every input. -/
theorem empty_content_analysis_witness :
    (process_content trivialOracle emptyRequest).1.analysis.readability.word_count = 0 ∧
    (process_content trivialOracle emptyRequest).1.analysis.seo.content_length = 0 ∧
    ({ type := "content", priority := "high",
       message := "Content too short. Aim for at least 300 words for better SEO.",
       current_value := 0, target_value := 300 } : Recommendation) ∈
      (process_content trivialOracle emptyRequest).2 :=
  empty_content_analysis trivialOracle rfl

/-! ## Target-parameter defaults (C4) -/

/-- C4 counterexample: a request that supplies `target_audience` as the
empty string ("present but empty") passes through the route-level
`setdefault` untouched, so the TargetParams recorded in the report carry
the empty string, not "general audience" — refuting the claim for the
"leaves empty" case. -/
theorem route_defaults_counterexample :
    (process_content trivialOracle (apply_route_defaults
      { content := "hello", target_audience := some "", target_readability := none,
        target_tone := none, optimization_goal := none })).1.target_params.target_audience
      ≠ "general audience" := by decide

/-- C4 amended: for every request whose input OMITS (rather than omits or
leaves empty) target_audience, target_tone, optimization_goal and
target_readability, the TargetParams recorded in the report after the
route-level defaulting carry "general audience", "professional",
"engagement" and 8 respectively. -/
theorem route_defaults_amended (o : NlpOracle) (data : RequestData)
    (ha : data.target_audience = none) (hr : data.target_readability = none)
    (ht : data.target_tone = none) (hg : data.optimization_goal = none) :
    (process_content o (apply_route_defaults data)).1.target_params =
      { target_audience := "general audience", target_readability := 8,
        target_tone := "professional", optimization_goal := "engagement" } := by
  have hform : (process_content o (apply_route_defaults data)).1.target_params =
      { target_audience := (apply_route_defaults data).target_audience.getD ""
        target_readability := (apply_route_defaults data).target_readability.getD 8
        target_tone := (apply_route_defaults data).target_tone.getD ""
        optimization_goal := (apply_route_defaults data).optimization_goal.getD "" } := rfl
  rw [hform]
  simp [apply_route_defaults, ha, hr, ht, hg]

/-- Witness for the amended C4 at a concrete oracle and an all-absent
request. -/
theorem route_defaults_amended_witness :
    (process_content trivialOracle (apply_route_defaults emptyRequest)).1.target_params =
      { target_audience := "general audience", target_readability := 8,
        target_tone := "professional", optimization_goal := "engagement" } :=
  route_defaults_amended trivialOracle emptyRequest rfl rfl rfl rfl

/-! ## Tone scores (C5) -/

/-- The tone score exactly as the claim words it: the sum over the tone's
indicators of the number of occurrences of that indicator in the
lower-cased text (each indicator contributing up to the count of its own
occurrences, not merely 0 or 1). -/
def tone_score_by_occurrences (indicators : List String) (text_lower : String) : Nat :=
  (indicators.map (fun i => countOcc i.data text_lower.data)).sum

/-- C5 counterexample: on the text "really really" the casual indicator
"really" occurs twice, so the claimed occurrence-counting score is 2, but
the code's score (substring presence, 0 or 1 per indicator) is 1. -/
theorem tone_score_occurrences_counterexample :
    (detect_tone "really really").tone_scores.casual ≠
      tone_score_by_occurrences casual_indicators (strLower "really really") := by
  decide

theorem listContainsSub_iff_countOcc (n : List Char) (h : List Char) :
    listContainsSub n h = true ↔ 1 ≤ countOcc n h := by
  induction h with
  | nil => cases hp : n.isPrefixOf [] <;> simp [listContainsSub, countOcc, hp]
  | cons c cs ih =>
    cases hp : n.isPrefixOf (c :: cs)
    · simp [listContainsSub, countOcc, hp, ih]
    · simp [listContainsSub, countOcc, hp]

theorem strContainsSub_eq_decide (tl i : String) :
    strContainsSub tl i = decide (1 ≤ countOcc i.data tl.data) := by
  by_cases h : 1 ≤ countOcc i.data tl.data
  · rw [decide_eq_true h]
    exact (listContainsSub_iff_countOcc _ _).mpr h
  · rw [decide_eq_false h]
    cases hc : strContainsSub tl i with
    | false => rfl
    | true => exact absurd ((listContainsSub_iff_countOcc _ _).mp hc) h

/-- C5 amended: for every input text, each tone score equals the number of
that tone's indicators having at least one case-insensitive substring
occurrence in the full text — each indicator contributes 0 or 1 (presence),
not its occurrence multiplicity; indicators are not mutually exclusive
(each of the four lists is counted independently). -/
theorem tone_scores_count_present_indicators (text : String) :
    (detect_tone text).tone_scores.formal =
      (formal_indicators.filter
        (fun i => 1 ≤ countOcc i.data (strLower text).data)).length ∧
    (detect_tone text).tone_scores.casual =
      (casual_indicators.filter
        (fun i => 1 ≤ countOcc i.data (strLower text).data)).length ∧
    (detect_tone text).tone_scores.expert =
      (expert_indicators.filter
        (fun i => 1 ≤ countOcc i.data (strLower text).data)).length ∧
    (detect_tone text).tone_scores.persuasive =
      (persuasive_indicators.filter
        (fun i => 1 ≤ countOcc i.data (strLower text).data)).length := by
  have hfun : (fun i => strContainsSub (strLower text) i) =
      (fun i => decide (1 ≤ countOcc i.data (strLower text).data)) :=
    funext (strContainsSub_eq_decide (strLower text))
  refine ⟨?_, ?_, ?_, ?_⟩ <;>
    (show (List.filter (fun i => strContainsSub (strLower text) i) _).length = _;
     rw [hfun])

/-! ## Dominant tone (C6) -/

/-- The specification's tie-break rule written directly: the first tone in
the fixed enumeration order formal, casual, expert, persuasive whose score
is greater than or equal to every later competitor (equivalently, the first
tone attaining the maximum score). -/
def spec_first_max (s : ToneScores) : String :=
  if s.formal ≥ s.casual ∧ s.formal ≥ s.expert ∧ s.formal ≥ s.persuasive then "formal"
  else if s.casual ≥ s.expert ∧ s.casual ≥ s.persuasive then "casual"
  else if s.expert ≥ s.persuasive then "expert"
  else "persuasive"

theorem pyMaxFirst_spec (f c e p : Nat) :
    pyMaxFirst ("formal", f) [("casual", c), ("expert", e), ("persuasive", p)] =
      spec_first_max { formal := f, casual := c, expert := e, persuasive := p } := by
  simp only [pyMaxFirst, List.foldl_cons, List.foldl_nil, spec_first_max]
  split_ifs <;> first | rfl | omega

theorem spec_first_max_ne_neutral (s : ToneScores) : spec_first_max s ≠ "neutral" := by
  unfold spec_first_max
  split_ifs <;> decide

theorem dominant_neutral_iff (s : ToneScores) :
    ((if s.formal ≠ 0 ∨ s.casual ≠ 0 ∨ s.expert ≠ 0 ∨ s.persuasive ≠ 0 then
        pyMaxFirst ("formal", s.formal)
          [("casual", s.casual), ("expert", s.expert), ("persuasive", s.persuasive)]
      else "neutral") = "neutral") ↔
      (s.formal = 0 ∧ s.casual = 0 ∧ s.expert = 0 ∧ s.persuasive = 0) := by
  by_cases h : s.formal = 0 ∧ s.casual = 0 ∧ s.expert = 0 ∧ s.persuasive = 0
  · rw [if_neg (by tauto)]
    simp [h]
  · rw [if_pos (by tauto), pyMaxFirst_spec]
    simp [h, spec_first_max_ne_neutral]

theorem dominant_first_max (s : ToneScores)
    (h : ¬(s.formal = 0 ∧ s.casual = 0 ∧ s.expert = 0 ∧ s.persuasive = 0)) :
    (if s.formal ≠ 0 ∨ s.casual ≠ 0 ∨ s.expert ≠ 0 ∨ s.persuasive ≠ 0 then
        pyMaxFirst ("formal", s.formal)
          [("casual", s.casual), ("expert", s.expert), ("persuasive", s.persuasive)]
      else "neutral") = spec_first_max s := by
  rw [if_pos (by tauto)]
  exact pyMaxFirst_spec _ _ _ _

/-- C6: for every input text, detected_tone is "neutral" exactly when all
four tone scores are 0; otherwise it is a tone with the maximum score, and
when several tones share the maximum it is the first of them in the fixed
order formal, casual, expert, persuasive. -/
theorem detected_tone_spec (text : String) :
    ((detect_tone text).detected_tone = "neutral" ↔
      ((detect_tone text).tone_scores.formal = 0 ∧
       (detect_tone text).tone_scores.casual = 0 ∧
       (detect_tone text).tone_scores.expert = 0 ∧
       (detect_tone text).tone_scores.persuasive = 0)) ∧
    (¬((detect_tone text).tone_scores.formal = 0 ∧
       (detect_tone text).tone_scores.casual = 0 ∧
       (detect_tone text).tone_scores.expert = 0 ∧
       (detect_tone text).tone_scores.persuasive = 0) →
      (detect_tone text).detected_tone = spec_first_max (detect_tone text).tone_scores) :=
  ⟨dominant_neutral_iff _, fun h => dominant_first_max _ h⟩

/-- Witness for C6 at a text with a unique maximal tone. -/
theorem detected_tone_spec_witness :
    (detect_tone "really important stuff").detected_tone =
      spec_first_max (detect_tone "really important stuff").tone_scores :=
  (detected_tone_spec "really important stuff").2 (by decide)

/-! ## Zero denominators (C7) -/

/-- C7: for every input text whose qualifying-word count is 0,
lexical_diversity is 0, and for every input text with zero detected
sentences, passive_voice_percentage is 0; both computations are total
(modelled in ℚ, no division error or NaN can arise). -/
theorem zero_denominators_safe (o : NlpOracle) (text : String) (target : Int) :
    ((analyze_topic_coverage o text none).total_words = 0 →
      (analyze_topic_coverage o text none).lexical_diversity = 0) ∧
    (o.sent_tokenize text = [] →
      (analyze_readability o text target).passive_voice_percentage = 0) := by
  constructor
  · intro h
    have hw : coverageWords o text = [] := List.length_eq_zero.mp h
    show (if coverageWords o text ≠ [] then
        ((counterKeys (coverageWords o text)).length : ℚ) /
          ((coverageWords o text).length : ℚ)
      else 0) = 0
    rw [if_neg (by simp [hw])]
  · intro h
    show (if o.sent_tokenize text ≠ [] then
        ((detect_passive_voice o text : ℚ) / ((o.sent_tokenize text).length : ℚ)) * 100
      else 0) = 0
    rw [if_neg (by simp [h])]

/-- Witness for C7 at a concrete oracle and the empty text. -/
theorem zero_denominators_safe_witness :
    (analyze_topic_coverage trivialOracle "" none).lexical_diversity = 0 ∧
    (analyze_readability trivialOracle "" 8).passive_voice_percentage = 0 :=
  ⟨(zero_denominators_safe trivialOracle "" 8).1 (by decide),
   (zero_denominators_safe trivialOracle "" 8).2 rfl⟩

/-! ## Rewrite fallback (C9) -/

/-- C9: for every content string and target parameters, if the analysis
pipeline fails during the rewrite operation, the orchestrator still invokes
the rewrite collaborator with no recommendations (target parameters only)
and still requests assets, so an analysis failure never prevents a
rewritten result and asset bundle from being returned. -/
theorem rewrite_fallback {α : Type}
    (run_analysis : RequestData → Except String (Report × List Recommendation))
    (gemini_rewrite_c : String → Option (List Recommendation) → TargetParams → String)
    (gemini_assets_c : String → TargetParams → α)
    (data : RequestData) (e : String)
    (h : run_analysis data = Except.error e) :
    generate_rewrite run_analysis gemini_rewrite_c gemini_assets_c data =
      (gemini_rewrite_c data.content none (rewrite_target_params data),
       gemini_assets_c data.content (rewrite_target_params data)) := by
  unfold generate_rewrite
  rw [h]

/-- Witness for C9 at a concrete failing analysis and concrete
collaborators. -/
theorem rewrite_fallback_witness :
    generate_rewrite (fun _ => Except.error "analysis failed")
      (fun _ recs _ => if recs.isSome then "with recommendations" else "no recommendations")
      (fun _ _ => (0 : Nat)) sampleData = ("no recommendations", 0) := by
  rw [rewrite_fallback _ _ _ sampleData "analysis failed" rfl]
  rfl

/-! ## Keyword density totality (C10) -/

/-- C10: keyword-density calculation is total: when the text contains no
qualifying word (alphabetic, non-stopword, length greater than 3), the
returned density mapping is empty — the per-word division only runs for
words drawn from the (then empty) frequency counter, so no division by the
zero total-word count is ever performed. -/
theorem keyword_density_empty (o : NlpOracle) (text : String)
    (h : keywordWords o text = []) :
    calculate_keyword_density o text 5 = [] := by
  unfold calculate_keyword_density
  rw [h]
  rfl

/-- Witness for C10 at a concrete oracle whose tokenizer returns no words. -/
theorem keyword_density_empty_witness :
    calculate_keyword_density trivialOracle "the and of" 5 = [] :=
  keyword_density_empty trivialOracle "the and of" rfl

end ContentRec
